import Mathlib

set_option maxRecDepth 100000

/-!
Verification development for the `bi-model-intent` repository.

The repository converts a generic NL-to-query training corpus into a
business-intelligence ("BI") corpus (`convert_to_bi_training_data.py`),
analyzes the converted corpus (`analyze_bi_training_data.py`), and drives a
batch LLM pipeline with retry/fallback/checkpoint logic
(`src/process_training_data.py`).  Below, each Python function relevant to
the claims is shallowly embedded as an executable Lean definition; strings
are Lean `String`s, Python dicts of fixed shape become structures whose
`Option` fields model key presence (`none` = key absent), and the external
LLM collaborator becomes an explicit oracle of per-attempt outcomes.
-/

/-! ## String primitives

Python string operations used by the source, modelled on `List Char`:
`lowerL` is `str.lower` (ASCII letters only occur in the data handled here,
matching `Char.toLower`'s behavior on them), `isSubstr` is Python's
substring containment `pat in s`, `pyReplace` is `str.replace` (leftmost,
non-overlapping, case-sensitive replace-all), and `replaceCI` is
`re.sub(re.escape(pat), repl, s, flags=re.IGNORECASE)` for a literal
pattern and a replacement containing no escapes (leftmost, non-overlapping,
case-insensitive replace-all). -/

def lowerL (s : List Char) : List Char := s.map Char.toLower

/-- Python substring containment `pat in s`. -/
def isSubstr (pat : List Char) : List Char → Bool
  | [] => pat.isEmpty
  | c :: cs => pat.isPrefixOf (c :: cs) || isSubstr pat cs

/-- One scanning step of `str.replace`, fuelled so that the definition is
structurally recursive and kernel-computable; `fuel ≥ s.length` makes the
fuel irrelevant. -/
def pyReplaceAux (pat repl : List Char) : Nat → List Char → List Char
  | 0, s => s
  | _ + 1, [] => []
  | fuel + 1, c :: cs =>
    if pat ≠ [] ∧ pat.isPrefixOf (c :: cs) then
      repl ++ pyReplaceAux pat repl fuel ((c :: cs).drop pat.length)
    else
      c :: pyReplaceAux pat repl fuel cs

/-- Python `s.replace(pat, repl)`: replace every (leftmost, non-overlapping)
occurrence of `pat` in `s` by `repl`, case-sensitively. -/
def pyReplace (pat repl s : List Char) : List Char :=
  pyReplaceAux pat repl s.length s

/-- One scanning step of the case-insensitive literal `re.sub`, fuelled as in
`pyReplaceAux`. -/
def replaceCIAux (pat repl : List Char) : Nat → List Char → List Char
  | 0, s => s
  | _ + 1, [] => []
  | fuel + 1, c :: cs =>
    if pat ≠ [] ∧ (lowerL pat).isPrefixOf (lowerL (c :: cs)) then
      repl ++ replaceCIAux pat repl fuel ((c :: cs).drop pat.length)
    else
      c :: replaceCIAux pat repl fuel cs

/-- `re.sub(re.compile(re.escape(pat), re.IGNORECASE), repl, s)`: replace
every (leftmost, non-overlapping) case-insensitive occurrence of the literal
`pat` in `s` by `repl`. -/
def replaceCI (pat repl s : List Char) : List Char :=
  replaceCIAux pat repl s.length s

/-! ## The vocabulary table

`BI_ENTITY_MAPPINGS` from `convert_to_bi_training_data.py` lines 15-125, in
the dict literal's insertion order.  The Python source repeats the four keys
`physical`, `mental`, `technical`, `tactical` (lines 117-124) with values
identical to their first occurrences (lines 117-120 repeat 121-124); a
Python dict literal keeps one entry per key at its first position, so the
table below lists each key once. -/

def BI_ENTITY_MAPPINGS : List (String × List String) := [
  ("departments", ["publishers", "advertisers", "bidders", "campaigns"]),
  ("employees", ["users", "customers", "viewers", "clicks"]),
  ("budget", ["revenue", "spend", "cost", "budget"]),
  ("companies", ["publishers", "advertisers", "platforms", "networks"]),
  ("schools", ["websites", "apps", "channels", "sites"]),
  ("students", ["users", "visitors", "customers", "audience"]),
  ("customers", ["users", "viewers", "clients", "audience"]),
  ("products", ["ads", "campaigns", "creatives", "placements"]),
  ("sales", ["impressions", "clicks", "conversions", "revenue"]),
  ("orders", ["requests", "bids", "impressions", "clicks"]),
  ("payments", ["revenue", "spend", "cost", "payments"]),
  ("branches", ["locations", "regions", "markets", "territories"]),
  ("ships", ["campaigns", "ads", "creatives", "placements"]),
  ("films", ["ads", "videos", "creatives", "content"]),
  ("movies", ["ads", "videos", "creatives", "content"]),
  ("books", ["ads", "creatives", "content", "materials"]),
  ("sports", ["campaigns", "ads", "activities", "events"]),
  ("games", ["campaigns", "ads", "activities", "events"]),
  ("directors", ["managers", "leaders", "operators", "controllers"]),
  ("count", ["total", "count", "number", "sum"]),
  ("total", ["total", "sum", "count", "number"]),
  ("average", ["average", "mean", "avg", "typical"]),
  ("maximum", ["maximum", "highest", "peak", "top"]),
  ("minimum", ["minimum", "lowest", "bottom", "least"]),
  ("sum", ["sum", "total", "count", "number"]),
  ("name", ["name", "title", "label", "identifier"]),
  ("type", ["type", "category", "classification", "group"]),
  ("status", ["status", "state", "condition", "phase"]),
  ("location", ["location", "region", "area", "market"]),
  ("date", ["date", "time", "period", "duration"]),
  ("year", ["year", "period", "timeframe", "duration"]),
  ("month", ["month", "period", "timeframe", "duration"]),
  ("day", ["day", "date", "time", "period"]),
  ("age", ["age", "duration", "period", "time"]),
  ("rank", ["rank", "position", "order", "level"]),
  ("value", ["value", "amount", "quantity", "measure"]),
  ("amount", ["amount", "value", "quantity", "measure"]),
  ("price", ["price", "cost", "value", "amount"]),
  ("cost", ["cost", "price", "value", "amount"]),
  ("enrollment", ["engagement", "participation", "involvement", "activity"]),
  ("population", ["audience", "users", "viewers", "participants"]),
  ("market_value", ["revenue", "value", "worth", "performance"]),
  ("tonnage", ["volume", "capacity", "size", "amount"]),
  ("nationality", ["origin", "source", "location", "region"]),
  ("headquarters", ["location", "region", "market", "area"]),
  ("industry", ["category", "type", "sector", "domain"]),
  ("affiliation", ["association", "connection", "relationship", "partnership"]),
  ("foundation", ["creation", "start", "beginning", "launch"]),
  ("establishment", ["creation", "start", "beginning", "launch"]),
  ("creation", ["creation", "start", "beginning", "launch"]),
  ("birth", ["creation", "start", "beginning", "launch"]),
  ("born", ["created", "started", "launched", "established"]),
  ("acting", ["temporary", "interim", "provisional", "acting"]),
  ("temporary", ["temporary", "interim", "provisional", "acting"]),
  ("permanent", ["permanent", "fixed", "stable", "established"]),
  ("public", ["public", "open", "accessible", "available"]),
  ("private", ["private", "restricted", "exclusive", "limited"]),
  ("scholarship", ["premium", "preferred", "priority", "special"]),
  ("tryout", ["test", "trial", "evaluation", "assessment"]),
  ("decision", ["result", "outcome", "status", "state"]),
  ("position", ["role", "function", "position", "category"]),
  ("striker", ["primary", "main", "key", "important"]),
  ("goalkeeper", ["secondary", "support", "backup", "auxiliary"]),
  ("defender", ["secondary", "support", "backup", "auxiliary"]),
  ("midfielder", ["secondary", "support", "backup", "auxiliary"]),
  ("forward", ["primary", "main", "key", "important"]),
  ("coach", ["manager", "leader", "supervisor", "controller"]),
  ("team", ["group", "team", "unit", "collective"]),
  ("league", ["category", "group", "class", "division"]),
  ("season", ["period", "timeframe", "duration", "cycle"]),
  ("match", ["event", "activity", "session", "engagement"]),
  ("game", ["event", "activity", "session", "engagement"]),
  ("tournament", ["event", "activity", "session", "engagement"]),
  ("competition", ["event", "activity", "session", "engagement"]),
  ("championship", ["event", "activity", "session", "engagement"]),
  ("winner", ["winner", "leader", "top", "best"]),
  ("loser", ["loser", "bottom", "worst", "least"]),
  ("score", ["score", "rating", "performance", "result"]),
  ("goal", ["goal", "target", "objective", "aim"]),
  ("assist", ["assist", "support", "help", "aid"]),
  ("red_card", ["penalty", "violation", "issue", "problem"]),
  ("yellow_card", ["warning", "caution", "alert", "notice"]),
  ("foul", ["violation", "penalty", "issue", "problem"]),
  ("corner", ["corner", "edge", "boundary", "limit"]),
  ("penalty", ["penalty", "violation", "issue", "problem"]),
  ("substitution", ["change", "replacement", "switch", "update"]),
  ("injury", ["issue", "problem", "disruption", "interruption"]),
  ("suspension", ["suspension", "pause", "stop", "halt"]),
  ("transfer", ["transfer", "move", "change", "shift"]),
  ("contract", ["contract", "agreement", "deal", "arrangement"]),
  ("salary", ["salary", "payment", "compensation", "reward"]),
  ("bonus", ["bonus", "reward", "incentive", "benefit"]),
  ("commission", ["commission", "fee", "charge", "cost"]),
  ("tax", ["tax", "fee", "charge", "cost"]),
  ("insurance", ["insurance", "protection", "coverage", "safety"]),
  ("medical", ["medical", "health", "care", "treatment"]),
  ("physical", ["physical", "health", "fitness", "condition"]),
  ("mental", ["mental", "psychological", "emotional", "cognitive"]),
  ("technical", ["technical", "skill", "ability", "capability"]),
  ("tactical", ["tactical", "strategic", "planning", "approach"])]

/-- The flattened value list
`[term for terms in BI_ENTITY_MAPPINGS.values() for term in terms]`
(line 159 of `convert_to_bi_training_data.py`). -/
def bi_terms_flat : List String :=
  BI_ENTITY_MAPPINGS.foldr (fun e acc => e.2 ++ acc) []

/-! ## `convert_question_to_bi` (lines 142-169)

The first pass iterates the table in insertion order; for each generic term
contained (case-sensitively, but the keys are lowercase) in the lowercased
*original* question it replaces, case-insensitively, every occurrence of the
term in the accumulated string by the term's first-ranked value
(`bi_terms[0]`, the inline comment notwithstanding).  The second pass runs
only when no flat-table value occurs in the lowercase of the first pass's
result; it then rewrites a detected generic opener with Python's
case-sensitive `str.replace`. -/

/-- The first pass of `convert_question_to_bi`: the `for generic_term,
bi_terms in BI_ENTITY_MAPPINGS.items()` loop (lines 145-156). -/
def first_pass (question : String) : List Char :=
  let question_lower := lowerL question.data
  BI_ENTITY_MAPPINGS.foldl
    (fun converted entry =>
      if isSubstr entry.1.data question_lower then
        replaceCI entry.1.data ((entry.2.headD "").data) converted
      else converted)
    question.data

/-- The second pass of `convert_question_to_bi`: the `Add BI context if
missing` block (lines 158-168). -/
def add_bi_context (converted : List Char) : List Char :=
  if ¬ (bi_terms_flat.any fun t => isSubstr t.data (lowerL converted)) then
    if isSubstr "how many".data (lowerL converted) then
      pyReplace "how many".data "How many users".data converted
    else if isSubstr "list".data (lowerL converted) then
      pyReplace "List".data "List all campaigns".data converted
    else if isSubstr "what are".data (lowerL converted) then
      pyReplace "What are".data "What are all the".data converted
    else converted
  else converted

/-- `convert_question_to_bi` (lines 142-169): first pass then second pass. -/
def convert_question_to_bi (question : String) : String :=
  String.mk (add_bi_context (first_pass question))

/-! ## Data model

The JSON objects the repository passes around, as fixed-shape structures.
A field of type `Option τ` models an optional dict key: `none` means the key
is absent.  `timegrain`/`timeframe`/`pattern` are `Option (Option String)`:
the outer layer is key presence, the inner layer JSON `null`. -/

/-- A measure or dimension entry: a dict that may carry a `name` key; the
source code reads and writes only `name`, any other keys pass through
untouched and are not modelled. -/
structure NamedField where
  name : Option String
deriving DecidableEq, Repr

/-- An `unmatched_intents` entry: a dict that may carry a `phrase` key; the
source code reads and writes only `phrase`. -/
structure IntentPhrase where
  phrase : Option String
deriving DecidableEq, Repr

/-- One discovery step (a dict); every field is an optional key. -/
structure DiscoveryStep where
  step_id : Option String
  sub_question : Option String
  measures : Option (List NamedField)
  dimensions : Option (List NamedField)
  timegrain : Option (Option String)
  timeframe : Option (Option String)
  pattern : Option (Option String)
  segments : Option (List String)
  breakdowns : Option (List String)
  unmatched_intents : Option (List IntentPhrase)
deriving DecidableEq, Repr

/-- An annotation record: the `output` object of a training example. -/
structure AnnotationRecord where
  intent : Option String
  discovery_results : Option (List DiscoveryStep)
deriving DecidableEq, Repr

/-- One training example: `{ "input": question, "output": record }`. -/
structure TrainingExample where
  input : String
  output : AnnotationRecord
deriving DecidableEq, Repr

/-- A discovery step with every required key present and empty collections:
a convenient base value for concrete corpora in the theorems below. -/
def emptyStep (sid : String) (sq : String) : DiscoveryStep :=
  { step_id := some sid
    sub_question := some sq
    measures := some []
    dimensions := some []
    timegrain := some none
    timeframe := some none
    pattern := some none
    segments := some []
    breakdowns := some []
    unmatched_intents := some [] }

/-! ## `convert_output_to_bi` (lines 171-221): returned value

The three closed rewrite tables (measure names, dimension names, unmatched
phrases), and the record the call returns.  The branches assigning a value
equal to the scrutinee (`Average`, `Entity`) are value-level no-ops and fold
into the final else. -/

/-- The measure-name rewrite chain (lines 183-193). -/
def mapMeasureName (s : String) : String :=
  if s = "Count" then "Total"
  else if s = "Average" then "Average"
  else if s = "Max" then "Maximum"
  else if s = "Min" then "Minimum"
  else if s = "Sum" then "Total"
  else s

/-- The dimension-name rewrite chain (lines 199-207). -/
def mapDimensionName (s : String) : String :=
  if s = "Geographic" then "Region"
  else if s = "Temporal" then "Time"
  else if s = "Entity" then "Entity"
  else if s = "Categorical" then "Category"
  else s

/-- The unmatched-intent phrase rewrite chain (lines 213-219): membership in
one of three fixed groups implies a canonical replacement. -/
def mapPhrase (s : String) : String :=
  if s ∈ ["departments", "employees", "customers", "students"] then "users"
  else if s ∈ ["budget", "sales", "revenue"] then "revenue"
  else if s ∈ ["companies", "schools", "organizations"] then "publishers"
  else s

/-- `if "name" in measure: measure["name"] = ...`: rewrite the `name` key
when present. -/
def normalizeNamed (f : String → String) (m : NamedField) : NamedField :=
  { name := m.name.map f }

/-- `if "phrase" in intent: intent["phrase"] = ...`. -/
def normalizePhrase (ip : IntentPhrase) : IntentPhrase :=
  { phrase := ip.phrase.map mapPhrase }

/-- The per-step body of the `for result in converted_output
["discovery_results"]` loop: rewrite `measures`, `dimensions` and
`unmatched_intents` entries when those keys are present. -/
def normalizeStep (st : DiscoveryStep) : DiscoveryStep :=
  { st with
    measures := st.measures.map (List.map (normalizeNamed mapMeasureName))
    dimensions := st.dimensions.map (List.map (normalizeNamed mapDimensionName))
    unmatched_intents := st.unmatched_intents.map (List.map normalizePhrase) }

/-- The value `convert_output_to_bi` returns: the record with every step's
names and phrases rewritten; shape, arity and all other fields unchanged.
(The in-place effects of the same source function on its *argument* are
modelled separately below by `convert_output_to_bi_mut`.) -/
def convert_output_to_bi (out : AnnotationRecord) : AnnotationRecord :=
  { out with
    discovery_results := out.discovery_results.map (List.map normalizeStep) }

/-! ## `convert_output_to_bi`: store semantics

The source does `converted_output = output.copy()` — a *shallow* dict copy —
and then assigns `measure["name"]`, `dimension["name"]` and
`intent["phrase"]` on the dicts reached through the shared
`discovery_results` list.  To state what the caller's record looks like
after the call, the measure/dimension dicts and unmatched-intent dicts
become numbered cells of an explicit store, records hold cell addresses, and
the function becomes a store transformer.  `observe` dereferences a record
against a store, giving the value a caller reads. -/

/-- The mutable store: `names` holds the `name` field of each
measure/dimension dict (address = list index, `none` = key absent),
`phrases` likewise the `phrase` field of each unmatched-intent dict. -/
structure PyStore where
  names : List (Option String)
  phrases : List (Option String)
deriving DecidableEq, Repr

/-- A discovery step holding addresses into the store; the remaining step
keys are never read or written by `convert_output_to_bi` and are not part of
the store model. -/
structure HStep where
  measures : Option (List Nat)
  dimensions : Option (List Nat)
  unmatched_intents : Option (List Nat)
deriving DecidableEq, Repr

/-- An annotation record over store addresses. -/
structure HRecord where
  intent : Option String
  discovery_results : Option (List HStep)
deriving DecidableEq, Repr

/-- Apply `f` to the `name`/`phrase` field of the cell at address `a` when
that field is present: one `measure["name"] = ...` style assignment. -/
def updateCell (f : String → String) (cells : List (Option String)) (a : Nat) :
    List (Option String) :=
  cells.set a ((cells.getD a none).map f)

/-- The store effect of `convert_output_to_bi` (lines 171-221): the shallow
`output.copy()` shares the `discovery_results` list and every dict in it, so
each name/phrase assignment lands in the caller-visible store.  The returned
record has the same top-level fields and the same addresses as the argument
(no top-level key is ever reassigned), so the function returns its argument
alongside the updated store. -/
def convert_output_to_bi_mut (out : HRecord) (st : PyStore) : HRecord × PyStore :=
  match out.discovery_results with
  | none => (out, st)
  | some steps =>
    (out,
     steps.foldl
       (fun st step =>
         let st := match step.measures with
           | none => st
           | some as => { st with names := as.foldl (updateCell mapMeasureName) st.names }
         let st := match step.dimensions with
           | none => st
           | some as => { st with names := as.foldl (updateCell mapDimensionName) st.names }
         match step.unmatched_intents with
           | none => st
           | some as => { st with phrases := as.foldl (updateCell mapPhrase) st.phrases })
       st)

/-- A step as a caller reads it through the store. -/
structure VStep where
  measures : Option (List (Option String))
  dimensions : Option (List (Option String))
  unmatched_intents : Option (List (Option String))
deriving DecidableEq, Repr

/-- A record as a caller reads it through the store. -/
structure VRecord where
  intent : Option String
  discovery_results : Option (List VStep)
deriving DecidableEq, Repr

/-- Dereference one step against a store. -/
def observeStep (st : PyStore) (h : HStep) : VStep :=
  { measures := h.measures.map (List.map fun a => st.names.getD a none)
    dimensions := h.dimensions.map (List.map fun a => st.names.getD a none)
    unmatched_intents := h.unmatched_intents.map (List.map fun a => st.phrases.getD a none) }

/-- Dereference a record against a store: the value a caller holding the
record reads before or after a call. -/
def observe (st : PyStore) (r : HRecord) : VRecord :=
  { intent := r.intent
    discovery_results := r.discovery_results.map (List.map (observeStep st)) }

/-! ## `analyze_bi_training_data` (analyze_bi_training_data.py)

The complexity-distribution pass (lines 34-52) and the output-quality pass
(lines 121-154), which the claims are about.  The BI-terms-coverage,
question-patterns and issues passes (lines 54-119 and 156-175) only read
the corpus and contribute none of the fields below; they are not modelled.
Python floats produced by the two divisions are modelled as rationals.  On
an empty corpus the division `/ len(bi_data)` at line 51 raises an uncaught
`ZeroDivisionError`, modelled as `Except.error`. -/

/-- The `step_counts` tally (lines 36-44): for every example with a
`discovery_results` key, every step whose `step_id` (default `"unknown"`)
is one of `step_1`/`step_2`/`step_3` bumps that counter.  The triple is
(step_1, step_2, step_3). -/
def step_counts (bi_data : List TrainingExample) : Nat × Nat × Nat :=
  bi_data.foldl
    (fun acc e =>
      match e.output.discovery_results with
      | none => acc
      | some rs =>
        rs.foldl
          (fun acc r =>
            let sid := r.step_id.getD "unknown"
            if sid = "step_1" then (acc.1 + 1, acc.2.1, acc.2.2)
            else if sid = "step_2" then (acc.1, acc.2.1 + 1, acc.2.2)
            else if sid = "step_3" then (acc.1, acc.2.1, acc.2.2 + 1)
            else acc)
          acc)
    (0, 0, 0)

/-- The `complexity_distribution` entry of the analysis dict (lines 46-52). -/
structure ComplexityDistribution where
  simple_questions : Nat
  complex_questions : Nat
  multi_step_questions : Nat
  three_step_questions : Nat
  complexity_ratio : ℚ
deriving DecidableEq, Repr

/-- Lines 46-52: the distribution built from `step_counts`; the ratio is
`(step_counts["step_2"] + step_counts["step_3"]) / len(bi_data)`. -/
def complexity_distribution (bi_data : List TrainingExample) : ComplexityDistribution :=
  let sc := step_counts bi_data
  { simple_questions := sc.1
    complex_questions := sc.2.1 + sc.2.2
    multi_step_questions := sc.2.1
    three_step_questions := sc.2.2
    complexity_ratio := ((sc.2.1 + sc.2.2 : Nat) : ℚ) / (bi_data.length : ℚ) }

/-- The `required_fields` list of the output-quality pass (lines 140-142). -/
def required_fields : List String :=
  ["step_id", "sub_question", "measures", "dimensions", "timegrain",
   "timeframe", "pattern", "segments", "breakdowns", "unmatched_intents"]

/-- `field in result` for the ten required step keys. -/
def stepHasField (r : DiscoveryStep) : String → Bool
  | "step_id" => r.step_id.isSome
  | "sub_question" => r.sub_question.isSome
  | "measures" => r.measures.isSome
  | "dimensions" => r.dimensions.isSome
  | "timegrain" => r.timegrain.isSome
  | "timeframe" => r.timeframe.isSome
  | "pattern" => r.pattern.isSome
  | "segments" => r.segments.isSome
  | "breakdowns" => r.breakdowns.isSome
  | "unmatched_intents" => r.unmatched_intents.isSome
  | _ => true

/-- The issue strings of the inner `for field in required_fields` loop
(lines 144-146) for one step, in required-field order. -/
def stepIssueStrings (i j : Nat) (r : DiscoveryStep) : List String :=
  (required_fields.filter (fun f => ¬ stepHasField r f)).map
    (fun f => "Example " ++ Nat.repr i ++ ", Result " ++ Nat.repr j ++ ": Missing " ++ f)

/-- The `for j, result in enumerate(...)` loop (lines 139-146), started at
step index `j`. -/
def recordStepIssues (i : Nat) : Nat → List DiscoveryStep → List String
  | _, [] => []
  | j, r :: rest => stepIssueStrings i j r ++ recordStepIssues i (j + 1) rest

/-- The body of the per-example loop of the output-quality pass (lines
126-148) for the example at index `i`: the issue strings it appends and the
amount (0 or 1) it adds to `valid_outputs`.  A missing top-level key
`continue`s past both the step checks and the `valid_outputs += 1`. -/
def exampleQuality (i : Nat) (out : AnnotationRecord) : List String × Nat :=
  if out.intent.isNone then
    (["Example " ++ Nat.repr i ++ ": Missing intent field"], 0)
  else
    match out.discovery_results with
    | none => (["Example " ++ Nat.repr i ++ ": Missing discovery_results"], 0)
    | some rs => (recordStepIssues i 0 rs, 1)

/-- The whole per-example loop from index `i` on: accumulated
(output_issues, valid_outputs). -/
def outputQualityAux (i : Nat) : List TrainingExample → List String × Nat
  | [] => ([], 0)
  | e :: rest =>
    let q := exampleQuality i e.output
    let r := outputQualityAux (i + 1) rest
    (q.1 ++ r.1, q.2 + r.2)

/-- The `output_quality` entry of the analysis dict (lines 150-154). -/
structure OutputQuality where
  valid_outputs : Nat
  output_issues : List String
  validity_rate : ℚ
deriving DecidableEq, Repr

/-- Lines 121-154: the output-quality pass over the whole corpus;
`validity_rate = valid_outputs / len(bi_data)`. -/
def output_quality (bi_data : List TrainingExample) : OutputQuality :=
  let q := outputQualityAux 0 bi_data
  { valid_outputs := q.2
    output_issues := q.1
    validity_rate := (q.2 : ℚ) / (bi_data.length : ℚ) }

/-- The fields of the analysis dict the claims are about. -/
structure Analysis where
  total_examples : Nat
  complexity_distribution : ComplexityDistribution
  output_quality : OutputQuality
deriving DecidableEq, Repr

/-- `analyze_bi_training_data` (lines 15-177) restricted to the modelled
fields.  On an empty corpus the very first ratio (line 51) divides by zero
and the uncaught `ZeroDivisionError` aborts the process with a traceback and
nonzero exit; this is the `Except.error` branch. -/
def analyze_bi_training_data (bi_data : List TrainingExample) : Except String Analysis :=
  if bi_data.length = 0 then .error "division by zero"
  else
    .ok { total_examples := bi_data.length
          complexity_distribution := complexity_distribution bi_data
          output_quality := output_quality bi_data }

/-- The complexity-distribution contribution to the heuristic quality score
(`print_analysis_report`, lines 267-274): 20 points for a ratio in
[0.3, 0.7], 15 for [0.2, 0.8], else 10. -/
def complexity_score (comp_ratio : ℚ) : Nat :=
  if 3/10 ≤ comp_ratio ∧ comp_ratio ≤ 7/10 then 20
  else if 2/10 ≤ comp_ratio ∧ comp_ratio ≤ 8/10 then 15
  else 10

/-! ## `TrainingDataProcessor.process_question` (process_training_data.py lines 61-115)

Each iteration of `for attempt in range(max_retries)` makes exactly one
completion call; its result is an outcome of the external collaborator plus
`json.loads`, modelled by an oracle `outcomes : Nat → LLMOutcome`.  The
source does not validate the parsed JSON's shape, so a successful parse
carries an arbitrary record.  `time.sleep(2 ** attempt)` has no modelled
effect. -/

/-- What one completion attempt can yield: a successfully parsed response,
a `json.JSONDecodeError`, or an exception from the completion call itself
(transport error). -/
inductive LLMOutcome where
  | parsed (rec : AnnotationRecord)
  | parseFail
  | exn
deriving DecidableEq

/-- The fallback record returned when the last attempt's parse fails
(lines 90-108), verbatim from the source. -/
def fallback_example (question : String) : TrainingExample :=
  { input := question
    output :=
      { intent := some "intents_discovery"
        discovery_results := some [
          { step_id := some "step_1"
            sub_question := some question
            measures := some []
            dimensions := some []
            timegrain := some none
            timeframe := some none
            pattern := some none
            segments := some []
            breakdowns := some []
            unmatched_intents := some [] }] } }

/-- The retry loop of `process_question` over the remaining attempts'
outcomes.  `attempt == max_retries - 1` is exactly "no further attempt
remains".  A parse success returns `{"input": question, "output": result}`;
a parse failure on the last attempt returns the fallback; an exception on
the last attempt propagates (`raise e`, the `Except.error`); an empty
attempt list (only possible when `max_retries = 0`) falls out of the loop
and returns Python's implicit `None`. -/
def process_question_loop (question : String) :
    List LLMOutcome → Except Unit (Option TrainingExample)
  | [] => .ok none
  | o :: rest =>
    match o with
    | .parsed rec => .ok (some { input := question, output := rec })
    | .parseFail =>
      if rest.isEmpty then .ok (some (fallback_example question))
      else process_question_loop question rest
    | .exn =>
      if rest.isEmpty then .error ()
      else process_question_loop question rest

/-- How many completion calls the loop makes on the given outcomes: one per
iteration entered. -/
def completion_calls : List LLMOutcome → Nat
  | [] => 0
  | o :: rest =>
    match o with
    | .parsed _ => 1
    | .parseFail => 1 + if rest.isEmpty then 0 else completion_calls rest
    | .exn => 1 + if rest.isEmpty then 0 else completion_calls rest

/-- `process_question(question, max_retries)` under the oracle `outcomes`. -/
def process_question (question : String) (outcomes : Nat → LLMOutcome)
    (max_retries : Nat) : Except Unit (Option TrainingExample) :=
  process_question_loop question ((List.range max_retries).map outcomes)

/-- The number of completion calls `process_question` makes. -/
def process_question_calls (outcomes : Nat → LLMOutcome) (max_retries : Nat) : Nat :=
  completion_calls ((List.range max_retries).map outcomes)

/-! ## Checkpointing in `process_training_data` (lines 117-167) -/

/-- Python `range(0, stop, step)` for `step > 0` (`step = 0` raises
`ValueError` in Python; the theorems below assume a positive batch size). -/
def pyRange (stop step : Nat) : List Nat :=
  List.range' 0 ((stop + step - 1) / step) step

/-- The batch start indices of `for i in tqdm(range(0, len(data_to_process),
batch_size))` (line 133) over `n` questions. -/
def batch_starts (n batch_size : Nat) : List Nat := pyRange n batch_size

/-- The batch starts after which `save_intermediate_results` runs: the guard
is `(i + batch_size) % 50 == 0` (line 156), nested inside the batch loop
after `processed_data.extend(batch_results)`. -/
def intermediate_save_starts (n batch_size : Nat) : List Nat :=
  (batch_starts n batch_size).filter (fun i => (i + batch_size) % 50 == 0)

/-- The intermediate artifact's name,
`f"{output_file}.temp_{start_index}_{end_index}"` (line 164). -/
def temp_file_name (output_file : String) (start_index end_index : Nat) : String :=
  output_file ++ ".temp_" ++ Nat.repr start_index ++ "_" ++ Nat.repr end_index

/-- Concrete store for the mutation theorems: one measure dict whose `name`
is `"Count"`. -/
def demoStore : PyStore := { names := [some "Count"], phrases := [] }

/-- Concrete record for the mutation theorems: one step whose `measures`
list holds the dict at address 0. -/
def demoHRecord : HRecord :=
  { intent := some "intents_discovery"
    discovery_results := some [
      { measures := some [0], dimensions := some [], unmatched_intents := some [] }] }

/-- The 2-example corpus of the looser-validity scenario: example 0 has a
complete single step, example 1's only step is missing only `dimensions`;
both outputs have both top-level keys. -/
def c3Corpus : List TrainingExample := [
  { input := "How many publishers are there?"
    output := { intent := some "intents_discovery"
                discovery_results := some [emptyStep "step_1" "How many publishers are there?"] } },
  { input := "List all campaigns"
    output := { intent := some "intents_discovery"
                discovery_results := some [
                  { emptyStep "step_1" "List all campaigns" with dimensions := none }] } }]

/-- A 1-example corpus for witnesses over a nonempty corpus. -/
def oneExampleCorpus : List TrainingExample :=
  [{ input := "How many users are there?"
     output := { intent := some "intents_discovery"
                 discovery_results := some [emptyStep "step_1" "How many users are there?"] } }]

/-- The 4-example complexity corpus: two examples with a single `step_1`
step, two examples whose steps reach `step_2` (a `step_1` step and a
`step_2` step each). -/
def c7Corpus : List TrainingExample := [
  { input := "q1", output := { intent := some "intents_discovery"
                               discovery_results := some [emptyStep "step_1" "q1"] } },
  { input := "q2", output := { intent := some "intents_discovery"
                               discovery_results := some [emptyStep "step_1" "q2"] } },
  { input := "q3", output := { intent := some "intents_discovery"
                               discovery_results := some [emptyStep "step_1" "q3a", emptyStep "step_2" "q3b"] } },
  { input := "q4", output := { intent := some "intents_discovery"
                               discovery_results := some [emptyStep "step_1" "q4a", emptyStep "step_2" "q4b"] } }]

/-- The count the spec's words describe — "count of examples whose
discovery steps reach `step_1` only" — written from the spec's words for
comparison with what the code computes (the code tallies step occurrences,
not examples). -/
def spec_simple_example_count (bi_data : List TrainingExample) : Nat :=
  (bi_data.filter fun e =>
    match e.output.discovery_results with
    | none => false
    | some rs => rs.all fun r => r.step_id.getD "unknown" == "step_1").length

/-- A step dict with every required key absent. -/
def allMissingStep : DiscoveryStep :=
  { step_id := none, sub_question := none, measures := none, dimensions := none
    timegrain := none, timeframe := none, pattern := none, segments := none
    breakdowns := none, unmatched_intents := none }

/-! ## Helper lemmas -/

theorem isSubstr_map (f : Char → Char) (p : List Char) :
    ∀ s, isSubstr p s = true → isSubstr (p.map f) (s.map f) = true := by
  intro s
  induction s with
  | nil =>
    intro h
    cases p <;> simp_all [isSubstr]
  | cons c cs ih =>
    intro h
    simp only [isSubstr, Bool.or_eq_true] at h
    simp only [List.map_cons, isSubstr, Bool.or_eq_true]
    rcases h with h | h
    · left
      rw [List.isPrefixOf_iff_prefix] at h ⊢
      simpa using h.map f
    · right
      exact ih h

theorem isSubstr_self_append (p t : List Char) : isSubstr p (p ++ t) = true := by
  cases p with
  | nil => cases t <;> simp [isSubstr]
  | cons c cs =>
    simp only [List.cons_append, isSubstr, Bool.or_eq_true]
    left
    rw [List.isPrefixOf_iff_prefix]
    exact ⟨t, by simp⟩

theorem isSubstr_cons (p : List Char) (c : Char) (cs : List Char)
    (h : isSubstr p cs = true) : isSubstr p (c :: cs) = true := by
  simp only [isSubstr, Bool.or_eq_true]
  exact Or.inr h

theorem pyReplaceAux_contains_repl (pat repl : List Char) (hpat : pat ≠ []) :
    ∀ (fuel : Nat) (s : List Char), s.length ≤ fuel → isSubstr pat s = true →
      isSubstr repl (pyReplaceAux pat repl fuel s) = true := by
  intro fuel
  induction fuel with
  | zero =>
    intro s hs hsub
    cases s with
    | nil => cases pat <;> simp_all [isSubstr]
    | cons c cs => simp at hs
  | succ n ih =>
    intro s hs hsub
    cases s with
    | nil => cases pat <;> simp_all [isSubstr]
    | cons c cs =>
      by_cases hm : pat ≠ [] ∧ pat.isPrefixOf (c :: cs) = true
      · rw [pyReplaceAux, if_pos hm]
        exact isSubstr_self_append repl _
      · rw [pyReplaceAux, if_neg hm]
        have hnp : pat.isPrefixOf (c :: cs) = false := by
          rcases Bool.eq_false_or_eq_true (pat.isPrefixOf (c :: cs)) with h | h
          · exact absurd ⟨hpat, h⟩ hm
          · exact h
        have htail : isSubstr pat cs = true := by
          have := hsub
          simp only [isSubstr, Bool.or_eq_true, hnp] at this
          simpa using this
        have hlen : cs.length ≤ n := by
          simpa using Nat.le_of_succ_le_succ hs
        exact isSubstr_cons repl c _ (ih cs hlen htail)

theorem completion_calls_le (l : List LLMOutcome) : completion_calls l ≤ l.length := by
  induction l with
  | nil => simp [completion_calls]
  | cons o rest ih =>
    cases o with
    | parsed rec => simp [completion_calls]
    | parseFail =>
      simp only [completion_calls, List.length_cons]
      split <;> omega
    | exn =>
      simp only [completion_calls, List.length_cons]
      split <;> omega

theorem process_question_loop_all_parseFail (question : String) :
    ∀ l : List LLMOutcome, l ≠ [] → (∀ o ∈ l, o = .parseFail) →
      process_question_loop question l = .ok (some (fallback_example question)) := by
  intro l
  induction l with
  | nil => intro h; exact absurd rfl h
  | cons o rest ih =>
    intro _ hall
    have ho : o = .parseFail := hall o (List.mem_cons_self o rest)
    subst ho
    by_cases hr : rest = []
    · subst hr; simp [process_question_loop]
    · have hre : rest.isEmpty = false := by
        simpa [List.isEmpty_iff] using hr
      simp only [process_question_loop, hre, Bool.false_eq_true, if_false]
      exact ih hr (fun o hm => hall o (List.mem_cons_of_mem _ hm))

theorem completion_calls_all_parseFail :
    ∀ l : List LLMOutcome, (∀ o ∈ l, o = .parseFail) → completion_calls l = l.length := by
  intro l
  induction l with
  | nil => intro _; rfl
  | cons o rest ih =>
    intro hall
    have ho : o = .parseFail := hall o (List.mem_cons_self o rest)
    subst ho
    by_cases hr : rest = []
    · subst hr; rfl
    · have hre : rest.isEmpty = false := by simpa [List.isEmpty_iff] using hr
      have := ih (fun o hm => hall o (List.mem_cons_of_mem _ hm))
      simp only [completion_calls, hre, Bool.false_eq_true, if_false, this,
        List.length_cons]
      omega

theorem map_idem_list {α : Type} (g : α → α) (hg : ∀ a, g (g a) = g a)
    (l : List α) : (l.map g).map g = l.map g := by
  induction l with
  | nil => rfl
  | cons a t ih => simp [hg, ih]

theorem map_idem_option {α : Type} (F : α → α) (hF : ∀ a, F (F a) = F a)
    (o : Option α) : (o.map F).map F = o.map F := by
  cases o <;> simp [hF]

theorem mapMeasureName_idem (s : String) :
    mapMeasureName (mapMeasureName s) = mapMeasureName s := by
  unfold mapMeasureName
  split_ifs <;> simp_all

theorem mapDimensionName_idem (s : String) :
    mapDimensionName (mapDimensionName s) = mapDimensionName s := by
  unfold mapDimensionName
  split_ifs <;> simp_all

theorem mapPhrase_idem (s : String) : mapPhrase (mapPhrase s) = mapPhrase s := by
  unfold mapPhrase
  split_ifs <;> simp_all

theorem normalizeNamed_idem (f : String → String) (hf : ∀ s, f (f s) = f s)
    (m : NamedField) : normalizeNamed f (normalizeNamed f m) = normalizeNamed f m := by
  cases m with
  | mk name => cases name <;> simp [normalizeNamed, hf]

theorem normalizePhrase_idem (ip : IntentPhrase) :
    normalizePhrase (normalizePhrase ip) = normalizePhrase ip := by
  cases ip with
  | mk phrase => cases phrase <;> simp [normalizePhrase, mapPhrase_idem]

theorem normalizeStep_idem (st : DiscoveryStep) :
    normalizeStep (normalizeStep st) = normalizeStep st := by
  cases st
  simp [normalizeStep,
    map_idem_option _ (map_idem_list _ (normalizeNamed_idem _ mapMeasureName_idem)),
    map_idem_option _ (map_idem_list _ (normalizeNamed_idem _ mapDimensionName_idem)),
    map_idem_option _ (map_idem_list _ normalizePhrase_idem)]

theorem exampleQuality_snd_le (i : Nat) (out : AnnotationRecord) :
    (exampleQuality i out).2 ≤ 1 := by
  obtain ⟨i0, dr⟩ := out
  cases i0 <;> cases dr <;> simp [exampleQuality]

theorem outputQualityAux_snd_le (l : List TrainingExample) :
    ∀ i, (outputQualityAux i l).2 ≤ l.length := by
  induction l with
  | nil => intro i; simp [outputQualityAux]
  | cons e rest ih =>
    intro i
    have h1 := exampleQuality_snd_le i e.output
    have h2 := ih (i + 1)
    simp only [outputQualityAux, List.length_cons]
    omega

/-! ## Claim theorems -/

/-- C1: over every oracle of attempt outcomes, `process_question` with retry
bound `max_retries` makes at most `max_retries` completion calls; and when
there is at least one attempt and every attempt's parse fails, it makes
exactly `max_retries` calls and returns precisely the fallback skeleton:
`intent = "intents_discovery"`, a single `step_1` step whose `sub_question`
is the original question, all list fields empty, and
`timegrain`/`timeframe`/`pattern` null. -/
theorem C1_retry_bound_and_fallback (question : String)
    (outcomes : Nat → LLMOutcome) (max_retries : Nat) :
    process_question_calls outcomes max_retries ≤ max_retries ∧
    (0 < max_retries → (∀ k, k < max_retries → outcomes k = .parseFail) →
      process_question_calls outcomes max_retries = max_retries ∧
      process_question question outcomes max_retries = .ok (some
        { input := question
          output :=
            { intent := some "intents_discovery"
              discovery_results := some [
                { step_id := some "step_1"
                  sub_question := some question
                  measures := some []
                  dimensions := some []
                  timegrain := some none
                  timeframe := some none
                  pattern := some none
                  segments := some []
                  breakdowns := some []
                  unmatched_intents := some [] }] } })) := by
  have hmem : (∀ k, k < max_retries → outcomes k = .parseFail) →
      ∀ o ∈ (List.range max_retries).map outcomes, o = LLMOutcome.parseFail := by
    intro hall o ho
    obtain ⟨k, hk, rfl⟩ := List.mem_map.mp ho
    exact hall k (List.mem_range.mp hk)
  refine ⟨?_, fun hR hall => ⟨?_, ?_⟩⟩
  · have h := completion_calls_le ((List.range max_retries).map outcomes)
    simpa [process_question_calls] using h
  · have h := completion_calls_all_parseFail _ (hmem hall)
    simpa [process_question_calls] using h
  · have hne : (List.range max_retries).map outcomes ≠ [] := by
      simp only [ne_eq, List.map_eq_nil_iff, List.range_eq_nil]
      omega
    have h := process_question_loop_all_parseFail question _ hne (hmem hall)
    simpa [process_question, fallback_example] using h

/-- C1 witness: at retry bound 3 and an oracle whose every attempt is a
parse failure, exactly 3 calls are made and the fallback skeleton comes
back. -/
theorem C1_retry_bound_and_fallback_witness :
    process_question_calls (fun _ => .parseFail) 3 ≤ 3 ∧
    process_question "How many users are there?" (fun _ => .parseFail) 3 =
      .ok (some (fallback_example "How many users are there?")) := by
  have h := C1_retry_bound_and_fallback "How many users are there?"
    (fun _ => .parseFail) 3
  exact ⟨h.1, by rw [(h.2 (by decide) (fun k _ => rfl)).2]; rfl⟩

/-- C2: the Vocabulary Mapper replaces each table term present in the
question, case-insensitively and at every occurrence, by the term's
first-ranked domain equivalent carrying its own canonical casing: the table
maps `departments` to `publishers` first, the scenario question
`"How many departments are there?"` yields exactly
`"How many publishers are there?"`, an upper-cased occurrence is found and
replaced with the same canonically-cased replacement, and two occurrences
are both replaced. -/
theorem C2_first_ranked_replacement :
    ("departments", ["publishers", "advertisers", "bidders", "campaigns"])
        ∈ BI_ENTITY_MAPPINGS ∧
    convert_question_to_bi "How many departments are there?" =
      "How many publishers are there?" ∧
    convert_question_to_bi "How many DEPARTMENTS are there?" =
      "How many publishers are there?" ∧
    convert_question_to_bi "Compare departments with Departments" =
      "Compare publishers with publishers" := by
  refine ⟨by decide, by decide, by decide, by decide⟩

/-- C9 (code bug): the intermediate checkpoint is not written after every
batch.  With the default batch size 10 and 30 questions, the batch loop runs
for starts 0, 10, 20 and the guard `(i + batch_size) % 50 == 0` fires never;
over 100 questions it fires only after the batches starting at 40 and 90,
i.e. at the 50-question boundary; the intermediate file name is distinct
from the final output file. -/
theorem C9_no_save_after_every_batch :
    batch_starts 30 10 = [0, 10, 20] ∧
    intermediate_save_starts 30 10 = [] ∧
    intermediate_save_starts 100 10 = [40, 90] ∧
    temp_file_name "out.json" 0 1000 = "out.json.temp_0_1000" ∧
    temp_file_name "out.json" 0 1000 ≠ "out.json" := by
  refine ⟨by decide, by decide, by decide, by decide, by decide⟩

/-- C5 (code bug): `convert_output_to_bi` mutates its input.  Because
`output.copy()` is shallow, the caller's record read through the store after
the call differs from its value before the call (the measure name `"Count"`
has become `"Total"`), and equals the value read through the returned
record — input and output alias, the output is not independent. -/
theorem C5_normalizer_mutates_input :
    observe (convert_output_to_bi_mut demoHRecord demoStore).2 demoHRecord ≠
      observe demoStore demoHRecord ∧
    observe (convert_output_to_bi_mut demoHRecord demoStore).2 demoHRecord =
      observe (convert_output_to_bi_mut demoHRecord demoStore).2
        (convert_output_to_bi_mut demoHRecord demoStore).1 ∧
    observe demoStore demoHRecord =
      { intent := some "intents_discovery"
        discovery_results := some [
          { measures := some [some "Count"], dimensions := some []
            unmatched_intents := some [] }] } ∧
    observe (convert_output_to_bi_mut demoHRecord demoStore).2 demoHRecord =
      { intent := some "intents_discovery"
        discovery_results := some [
          { measures := some [some "Total"], dimensions := some []
            unmatched_intents := some [] }] } := by
  refine ⟨by decide, by decide, by decide, by decide⟩

/-- C4: the Schema Normalizer is idempotent — applying
`convert_output_to_bi` twice produces the same record as applying it once —
and every rewritten measure name, dimension name and unmatched-intent phrase
is a fixed point of its respective mapping. -/
theorem C4_normalizer_idempotent (out : AnnotationRecord) (s : String) :
    convert_output_to_bi (convert_output_to_bi out) = convert_output_to_bi out ∧
    mapMeasureName (mapMeasureName s) = mapMeasureName s ∧
    mapDimensionName (mapDimensionName s) = mapDimensionName s ∧
    mapPhrase (mapPhrase s) = mapPhrase s := by
  refine ⟨?_, mapMeasureName_idem s, mapDimensionName_idem s, mapPhrase_idem s⟩
  cases out
  simp [convert_output_to_bi,
    map_idem_option _ (map_idem_list _ normalizeStep_idem)]

/-- C3: on the 2-example corpus where example 0 is complete and example 1's
only step is missing just `dimensions` (both outputs having both top-level
keys), the analyzer reports `valid_outputs = 2` — validity counts only the
top-level-keys check — while the missing sub-field is logged as exactly one
issue string naming it. -/
theorem C3_loose_validity_scenario :
    ∃ a, analyze_bi_training_data c3Corpus = Except.ok a ∧
      a.output_quality.valid_outputs = 2 ∧
      a.output_quality.output_issues = ["Example 1, Result 0: Missing dimensions"] ∧
      a.output_quality.validity_rate = 1 ∧
      a.total_examples = 2 := by
  refine ⟨_, rfl, by decide, by decide, ?_, by decide⟩
  show (output_quality c3Corpus).validity_rate = 1
  have h2 : (outputQualityAux 0 c3Corpus).2 = 2 := by decide
  have hl : c3Corpus.length = 2 := by decide
  simp only [output_quality, h2, hl]
  norm_num

/-- C6: on every nonempty corpus the analyzer succeeds with a
`validity_rate` in [0, 1]; on the empty corpus the ratio division at line 51
divides by zero and the run aborts with an uncaught `ZeroDivisionError`
(nonzero exit), never producing a NaN or a silent zero rate. -/
theorem C6_validity_rate_bounds (bi_data : List TrainingExample) :
    (bi_data = [] → analyze_bi_training_data bi_data = .error "division by zero") ∧
    (bi_data ≠ [] →
      analyze_bi_training_data bi_data = .ok
        { total_examples := bi_data.length
          complexity_distribution := complexity_distribution bi_data
          output_quality := output_quality bi_data } ∧
      0 ≤ (output_quality bi_data).validity_rate ∧
      (output_quality bi_data).validity_rate ≤ 1) := by
  constructor
  · intro h
    subst h
    rfl
  · intro h
    have hlen : bi_data.length ≠ 0 := by
      simpa [List.length_eq_zero] using h
    have hpos : (0 : ℚ) < (bi_data.length : ℚ) := by
      exact_mod_cast Nat.pos_of_ne_zero hlen
    have hle : ((outputQualityAux 0 bi_data).2 : ℚ) ≤ (bi_data.length : ℚ) := by
      exact_mod_cast outputQualityAux_snd_le bi_data 0
    refine ⟨by simp [analyze_bi_training_data, hlen], ?_, ?_⟩
    · exact div_nonneg (Nat.cast_nonneg _) (Nat.cast_nonneg _)
    · exact (div_le_one hpos).mpr hle

/-- C6 witness: the empty corpus errors; a concrete 1-example corpus gets a
validity rate inside [0, 1]. -/
theorem C6_validity_rate_bounds_witness :
    analyze_bi_training_data [] = .error "division by zero" ∧
    (0 : ℚ) ≤ (output_quality oneExampleCorpus).validity_rate ∧
    (output_quality oneExampleCorpus).validity_rate ≤ 1 := by
  refine ⟨(C6_validity_rate_bounds []).1 rfl, ?_, ?_⟩
  · exact ((C6_validity_rate_bounds oneExampleCorpus).2 (by decide)).2.1
  · exact ((C6_validity_rate_bounds oneExampleCorpus).2 (by decide)).2.2

/-- C7 counterexample: on the 4-example corpus with two `step_1`-only
examples and two examples reaching `step_2`, the code's `simple_questions`
is 4 — it tallies `step_1` *step occurrences*, so the complex examples'
`step_1` steps count too — while the number of examples whose steps reach
`step_1` only (the claim's reading) is 2. -/
theorem C7_counterexample_counts_steps_not_examples :
    (complexity_distribution c7Corpus).simple_questions = 4 ∧
    spec_simple_example_count c7Corpus = 2 ∧
    (complexity_distribution c7Corpus).simple_questions ≠
      spec_simple_example_count c7Corpus := by
  refine ⟨by decide, by decide, by decide⟩

/-- C7 (amended): the complexity distribution tallies step occurrences by
`step_id` (`simple_questions` = number of `step_1` steps across all
examples, `complex_questions` = number of `step_2` plus `step_3` steps),
and `complexity_ratio = (step_2 + step_3 step count) / total_examples`; on
the 4-example corpus with two `step_1`-only examples and two reaching
`step_2` the ratio is exactly 0.5, which lies in [0.3, 0.7] and contributes
20 points to the heuristic quality score. -/
theorem C7_complexity_ratio_scenario :
    ∃ a, analyze_bi_training_data c7Corpus = Except.ok a ∧
      a.complexity_distribution.simple_questions = 4 ∧
      a.complexity_distribution.complex_questions = 2 ∧
      a.complexity_distribution.multi_step_questions = 2 ∧
      a.complexity_distribution.three_step_questions = 0 ∧
      a.complexity_distribution.complexity_ratio = 1/2 ∧
      a.total_examples = 4 ∧
      (3 : ℚ)/10 ≤ 1/2 ∧ (1 : ℚ)/2 ≤ 7/10 ∧
      complexity_score (1/2) = 20 := by
  have hc : (3 : ℚ)/10 ≤ 1/2 ∧ (1 : ℚ)/2 ≤ 7/10 := by
    constructor <;> norm_num
  refine ⟨_, rfl, by decide, by decide, by decide, by decide, ?_, by decide,
    hc.1, hc.2, ?_⟩
  · show (complexity_distribution c7Corpus).complexity_ratio = 1/2
    have hsc : step_counts c7Corpus = (4, 2, 0) := by decide
    have hl : c7Corpus.length = 4 := by decide
    simp only [complexity_distribution, hsc, hl]
    norm_num
  · unfold complexity_score
    rw [if_pos hc]

/-- C8 counterexample: `"How many zzz?"` satisfies the claim's hypotheses —
after the first pass no flat-table domain term occurs in the string, and a
case-insensitive "how many" opener is present — yet the result does not
contain "How many users": the containment test lowercases, but the
`str.replace` is case-sensitive and the literal lowercase "how many" never
occurs, so the question comes back unchanged. -/
theorem C8_counterexample_capitalized_opener :
    (bi_terms_flat.any fun t => isSubstr t.data (lowerL (first_pass "How many zzz?"))) = false ∧
    isSubstr "how many".data (lowerL (first_pass "How many zzz?")) = true ∧
    convert_question_to_bi "How many zzz?" = "How many zzz?" ∧
    isSubstr "How many users".data (convert_question_to_bi "How many zzz?").data = false := by
  refine ⟨by decide, by decide, by decide, by decide⟩

/-- C8 (amended): for every question that, after the first-pass table
substitutions, contains no flat-table domain term (case-insensitively) and
contains the opener as the literal lowercase substring "how many", the
second pass rewrites it so the result contains "How many users"; openers
whose casing differs are detected but left unrewritten because the
replacement is Python's case-sensitive `str.replace`. -/
theorem C8_how_many_injection_lowercase (q : String)
    (hflat : (bi_terms_flat.any fun t => isSubstr t.data (lowerL (first_pass q))) = false)
    (hhm : isSubstr "how many".data (first_pass q) = true) :
    isSubstr "How many users".data (convert_question_to_bi q).data = true := by
  have hlow : isSubstr "how many".data (lowerL (first_pass q)) = true := by
    have h := isSubstr_map Char.toLower _ _ hhm
    have heq : ("how many".data.map Char.toLower) = "how many".data := by decide
    rw [heq] at h
    exact h
  show isSubstr "How many users".data (add_bi_context (first_pass q)) = true
  unfold add_bi_context
  rw [hflat]
  simp only [Bool.false_eq_true, not_false_iff, if_true, hlow, if_pos]
  exact pyReplaceAux_contains_repl "how many".data "How many users".data
    (by decide) (first_pass q).length (first_pass q) (le_refl _) hhm

/-- C8 witness: the all-lowercase question "how many zzz?" meets both
hypotheses and the result contains "How many users". -/
theorem C8_how_many_injection_lowercase_witness :
    isSubstr "How many users".data (convert_question_to_bi "how many zzz?").data = true :=
  C8_how_many_injection_lowercase "how many zzz?" (by decide) (by decide)

/-- C10: an example whose output lacks the top-level `intent` key or the
top-level `discovery_results` key contributes exactly one issue string, adds
nothing to `valid_outputs`, and triggers no per-step required-field checks;
in particular a missing `intent` yields only the "Missing intent field"
issue, whatever the rest of the record looks like. -/
theorem C10_missing_top_level_short_circuits (i : Nat) (out : AnnotationRecord)
    (h : out.intent = none ∨ out.discovery_results = none) :
    (exampleQuality i out).2 = 0 ∧
    (exampleQuality i out).1.length = 1 ∧
    (out.intent = none →
      (exampleQuality i out).1 = ["Example " ++ Nat.repr i ++ ": Missing intent field"]) ∧
    (out.intent ≠ none → out.discovery_results = none →
      (exampleQuality i out).1 = ["Example " ++ Nat.repr i ++ ": Missing discovery_results"]) := by
  obtain ⟨i0, dr⟩ := out
  cases i0 <;> cases dr <;> simp_all [exampleQuality]

/-- C10 witness: at index 5, an output with no `intent` key whose only step
is missing every required field still produces exactly the single
"Missing intent field" issue and no valid-output increment. -/
theorem C10_missing_top_level_short_circuits_witness :
    (exampleQuality 5 { intent := none, discovery_results := some [allMissingStep] }).2 = 0 ∧
    (exampleQuality 5 { intent := none, discovery_results := some [allMissingStep] }).1 =
      ["Example 5: Missing intent field"] := by
  have h := C10_missing_top_level_short_circuits 5
    { intent := none, discovery_results := some [allMissingStep] } (Or.inl rfl)
  exact ⟨h.1, by rw [h.2.2.1 rfl]; decide⟩
